import Mathlib

/-!
Verification of the `forge test` reporting pipeline and Sputnik backend
bootstrap from `src/cli/src/forge.rs` (laizy/foundry).

The embedding follows the source:
* `TestResult` mirrors `forge::TestResult` as consumed by `test()`
  (fields `success`, `reason`, `counterexample`, `gas_used`, `logs`;
  the counterexample is modelled by its rendered string).
* The result set in the source is
  `HashMap<String, HashMap<String, TestResult>>`.  A `std` `HashMap`
  iterates its entries in an unspecified, per-process randomly seeded
  order, so the reporter consumes some enumeration of the map.  We model
  that enumeration as `ResultList`, a list of
  (contract name, list of (test name, TestResult)); any permutation of
  the inserted entries is an admissible enumeration.
* `runTests` / `runContracts` / `testRun` mirror the printing loops and
  the `exit_code` mutation of `test()` line by line, producing the list
  of stdout lines together with the final exit code.
* `fundFaucet` / `bootstrapSputnik` mirror the Sputnik bootstrap arm of
  `main` (faucet funding, optional fork wrapping).
-/

namespace Forge

/-- `forge::TestResult` as used by `test()` in `src/cli/src/forge.rs`:
`result.success`, `result.reason`, `result.counterexample`,
`result.gas_used`, `result.logs`.  The counterexample is modelled by the
string its `Display` impl renders; gas is a `u64`, modelled as `Nat`. -/
structure TestResult where
  success : Bool
  reason : Option String
  counterexample : Option String
  gas_used : Option Nat
  logs : List String
deriving DecidableEq

/-- One enumeration (iteration sequence) of the
`HashMap<String, HashMap<String, TestResult>>` produced by
`runner.test(pattern)` and consumed by the reporter. -/
abbrev ResultList := List (String × List (String × TestResult))

/-- `ansi_term::Colour::Green.paint(s)`: wraps `s` in the ANSI green
escape sequence. -/
def paintGreen (s : String) : String := "\x1b[32m" ++ s ++ "\x1b[0m"

/-- `ansi_term::Colour::Red.paint(s)`: wraps `s` in the ANSI red escape
sequence. -/
def paintRed (s : String) : String := "\x1b[31m" ++ s ++ "\x1b[0m"

/-- The `match (&result.reason, &result.counterexample)` of `test()`
building the FAIL marker text. -/
def failText (reason counterexample : Option String) : String :=
  match reason, counterexample with
  | some r, some c => "[FAIL. Reason: " ++ r ++ ". Counterexample: " ++ c ++ "]"
  | none, some c => "[FAIL. Counterexample: " ++ c ++ "]"
  | some r, none => "[FAIL. Reason: " ++ r ++ "]"
  | none, none => "[FAIL]"

/-- The `status` value of the per-test loop: green `[PASS]` on success,
red FAIL marker otherwise. -/
def statusText (t : TestResult) : String :=
  if t.success then paintGreen "[PASS]"
  else paintRed (failText t.reason t.counterexample)

/-- `result.gas_used.map(|x| x.to_string()).unwrap_or_else(|| "[fuzztest]".to_string())`. -/
def gasText (g : Option Nat) : String :=
  match g with
  | some x => toString x
  | none => "[fuzztest]"

/-- The `println!("{} {} (gas: {})", status, name, ...)` line of the
per-test loop. -/
def testLine (name : String) (t : TestResult) : String :=
  statusText t ++ " " ++ name ++ " (gas: " ++ gasText t.gas_used ++ ")"

/-- The verbosity (> 1) block printed per test: `"{status}: {name}"`, a
blank line, each log indented by two spaces, and a final blank line. -/
def renderVerbose (name : String) (t : TestResult) : List String :=
  ((if t.success then "Success" else "Failure") ++ ": " ++ name) :: "" ::
    (t.logs.map (fun l => "  " ++ l) ++ [""])

/-- The inner `for (name, result) in tests` loop of `test()`: produces
the summary lines and threads the mutable `exit_code`, which is set to
`-1` whenever a failing result is printed. -/
def runTests (ec : Int) : List (String × TestResult) → List String × Int
  | [] => ([], ec)
  | (name, result) :: rest =>
    let ec2 : Int := if result.success then ec else -1
    let r := runTests ec2 rest
    (testLine name result :: r.1, r.2)

/-- The outer `for (i, (contract_name, tests))` loop of `test()`:
blank separator before every contract after the first, a
`Running {n} {term} for {contract}` header for non-empty contracts, the
per-test summary lines, and the verbosity block when `verbosity > 1`.
`exit_code` threads through in program order. -/
def runContracts (ec : Int) (verbosity : Nat) (i : Nat) : ResultList → List String × Int
  | [] => ([], ec)
  | (contract_name, tests) :: rest =>
    let sep : List String := if 0 < i then [""] else []
    let header : List String :=
      if tests.isEmpty then []
      else ["Running " ++ toString tests.length ++ " " ++
            (if 1 < tests.length then "tests" else "test") ++
            " for " ++ contract_name]
    let tr := runTests ec tests
    let verb : List String :=
      if 1 < verbosity then "" :: tests.flatMap (fun p => renderVerbose p.1 p.2)
      else []
    let rr := runContracts tr.2 verbosity (i + 1) rest
    (sep ++ header ++ tr.1 ++ verb ++ rr.1, rr.2)

/-- `rs` contains at least one failing test. -/
def hasFailure (rs : ResultList) : Bool :=
  rs.any (fun c => c.2.any (fun p => !p.2.success))

/-- Every test in `rs` succeeded. -/
def allSuccess (rs : ResultList) : Bool :=
  rs.all (fun c => c.2.all (fun p => p.2.success))

/-- The `.1` component of `runTests` does not depend on the incoming
exit code. -/
theorem runTests_fst (ec ec' : Int) (ts : List (String × TestResult)) :
    (runTests ec ts).1 = (runTests ec' ts).1 := by
  induction ts generalizing ec ec' with
  | nil => rfl
  | cons p rest ih =>
    obtain ⟨name, result⟩ := p
    simp only [runTests]
    exact congrArg _ (ih _ _)

/-- The exit code after the inner loop: `-1` exactly when some test in
the contract failed, otherwise the incoming code. -/
theorem runTests_snd (ec : Int) (ts : List (String × TestResult)) :
    (runTests ec ts).2 =
      if ts.any (fun p => !p.2.success) then -1 else ec := by
  induction ts generalizing ec with
  | nil => simp [runTests]
  | cons p rest ih =>
    obtain ⟨name, result⟩ := p
    simp only [runTests, List.any_cons]
    rw [ih]
    by_cases hr : rest.any (fun p => !p.2.success) <;>
      by_cases hs : result.success <;> simp [hr, hs]

/-- The exit code after the outer loop: the `-1` latch fires exactly
when some test in the whole result set failed. -/
theorem runContracts_snd (ec : Int) (v i : Nat) (rs : ResultList) :
    (runContracts ec v i rs).2 = if hasFailure rs then -1 else ec := by
  induction rs generalizing ec i with
  | nil => simp [runContracts, hasFailure]
  | cons c rest ih =>
    obtain ⟨cn, tests⟩ := c
    simp only [runContracts, hasFailure, List.any_cons]
    rw [ih, runTests_snd]
    simp only [hasFailure] at *
    by_cases h : tests.any (fun p => !p.2.success) <;>
      by_cases h2 : rest.any (fun c => c.2.any fun p => !p.2.success) <;>
        simp [h, h2]

/-- JSON documents, at the level of the abstract syntax tree produced
and consumed by `serde_json`.  Object fields are kept in emission
order. -/
inductive Json where
  | null : Json
  | bool (b : Bool) : Json
  | num (n : Nat) : Json
  | str (s : String) : Json
  | arr (xs : List Json) : Json
  | obj (fields : List (String × Json)) : Json

/-- One character of a JSON string, escaped as `serde_json` emits it. -/
def escChar (c : Char) : String :=
  if c = '"' then "\\\""
  else if c = '\\' then "\\\\"
  else if c = '\n' then "\\n"
  else if c = '\r' then "\\r"
  else if c = '\t' then "\\t"
  else String.singleton c

/-- A JSON string literal with its quotes. -/
def quoteString (s : String) : String :=
  "\"" ++ String.join (s.toList.map escChar) ++ "\""

/-- Compact text rendering of a JSON document (`serde_json::to_string`
layout: no whitespace, `,` and `:` separators). -/
def printJson : Json → String
  | .null => "null"
  | .bool true => "true"
  | .bool false => "false"
  | .num n => toString n
  | .str s => quoteString s
  | .arr xs =>
    "[" ++ String.intercalate "," (xs.attach.map (fun x => printJson x.1)) ++ "]"
  | .obj fs =>
    "\x7b" ++
      String.intercalate ","
        (fs.attach.map (fun f => quoteString f.1.1 ++ ":" ++ printJson f.1.2)) ++
      "\x7d"
decreasing_by
  · have := List.sizeOf_lt_of_mem x.2
    simp_wf
    omega
  · obtain ⟨⟨a, b⟩, hmem⟩ := f
    have h := List.sizeOf_lt_of_mem hmem
    simp_wf
    simp only [Prod.mk.sizeOf_spec] at h
    omega

/-- Serialization of an `Option String` field (`None` ↦ `null`). -/
def optStrJson : Option String → Json
  | some s => .str s
  | none => .null

/-- Serialization of the `Option` gas field (`None` ↦ `null`). -/
def optNumJson : Option Nat → Json
  | some n => .num n
  | none => .null

/-- Modelled from the spec: the `serde::Serialize` derive of
`forge::TestResult` (the `forge` crate is not under `src/`); field set
and order follow §3 of the spec: success, reason, counterexample,
gas_used, logs.  The counterexample is modelled by its rendered
string. -/
def testResultToJson (t : TestResult) : Json :=
  .obj [("success", .bool t.success),
        ("reason", optStrJson t.reason),
        ("counterexample", optStrJson t.counterexample),
        ("gas_used", optNumJson t.gas_used),
        ("logs", .arr (t.logs.map Json.str))]

/-- `serde_json::to_string(&results)` at the AST level: the outer
`HashMap` becomes an object whose fields appear in the enumeration
order of `rs`; each inner map likewise. -/
def resultSetToJson (rs : ResultList) : Json :=
  .obj (rs.map (fun c => (c.1, Json.obj (c.2.map (fun t => (t.1, testResultToJson t.2))))))

/-- The serialized document printed by the `json` branch of `test()`. -/
def serializeResultSet (rs : ResultList) : String :=
  printJson (resultSetToJson rs)

/-- Decoding a JSON value into a `Bool` field. -/
def boolOfJson : Json → Option Bool
  | .bool b => some b
  | _ => none

/-- Decoding a JSON value into an `Option String` field. -/
def optStrOfJson : Json → Option (Option String)
  | .null => some none
  | .str s => some (some s)
  | _ => none

/-- Decoding a JSON value into an `Option Nat` field. -/
def optNumOfJson : Json → Option (Option Nat)
  | .null => some none
  | .num n => some (some n)
  | _ => none

/-- Decoding a JSON array of strings. -/
def strsOfJson : List Json → Option (List String)
  | [] => some []
  | .str s :: rest => (strsOfJson rest).map (fun xs => s :: xs)
  | _ :: _ => none

/-- Decoding the logs field. -/
def logsOfJson : Json → Option (List String)
  | .arr xs => strsOfJson xs
  | _ => none

/-- Modelled from the spec: the `serde::Deserialize` derive of
`forge::TestResult` (the `forge` crate is not under `src/`), on the
canonical field order the serializer emits. -/
def testResultFromJson : Json → Option TestResult
  | .obj [("success", sj), ("reason", rj), ("counterexample", cj),
          ("gas_used", gj), ("logs", lj)] => do
    let s ← boolOfJson sj
    let r ← optStrOfJson rj
    let c ← optStrOfJson cj
    let g ← optNumOfJson gj
    let l ← logsOfJson lj
    some ⟨s, r, c, g, l⟩
  | _ => none

/-- Decoding an inner map (test name → TestResult), fields in document
order. -/
def testsFromJson : List (String × Json) → Option (List (String × TestResult))
  | [] => some []
  | (name, j) :: rest => do
    let t ← testResultFromJson j
    let ts ← testsFromJson rest
    some ((name, t) :: ts)

/-- Decoding the outer map (contract name → inner map), fields in
document order. -/
def contractsFromJson : List (String × Json) → Option ResultList
  | [] => some []
  | (cn, .obj tfs) :: rest => do
    let ts ← testsFromJson tfs
    let cs ← contractsFromJson rest
    some ((cn, ts) :: cs)
  | _ :: _ => none

/-- Parsing the machine-readable document back into a result set. -/
def resultSetFromJson : Json → Option ResultList
  | .obj fs => contractsFromJson fs
  | _ => none

/-- The field names of a JSON object, in emission order. -/
def jsonObjKeys : Json → List String
  | .obj fs => fs.map (fun f => f.1)
  | _ => []

/-- The whole reporting tail of `test()`: `exit_code` starts at 0; the
`json` branch prints the one serialized document and never touches
`exit_code`; the other branch runs the printing loops; `allow_failure`
finally forces the code back to 0.  Returns (stdout lines, the code
passed to `std::process::exit`). -/
def testRun (json : Bool) (verbosity : Nat) (allow_failure : Bool)
    (rs : ResultList) : List String × Int :=
  let ec : Int := 0
  let lr : List String × Int :=
    if json then ([serializeResultSet rs], ec)
    else runContracts ec verbosity 0 rs
  (lr.1, if allow_failure then 0 else lr.2)

/-- Process exit status as observed on Unix: the low 8 bits of the
`i32` passed to `std::process::exit`. -/
def unixExitStatus (code : Int) : Nat := (Int.emod code 256).toNat

/-- Largest `U256` value (`U256::MAX`). -/
def U256_MAX : Nat := 2 ^ 256 - 1

/-- `sputnik::backend::MemoryAccount`: balance and nonce are `U256`,
storage maps `H256` slots to `H256` values, code is a byte vector.
`Default::default()` zeroes every field. -/
structure MemoryAccount where
  nonce : Nat
  balance : Nat
  storage : List (Nat × Nat)
  code : List Nat
deriving DecidableEq

/-- `MemoryAccount::default()`. -/
def MemoryAccount.default : MemoryAccount := ⟨0, 0, [], []⟩

/-- The account state of a `MemoryBackend` (`BTreeMap<H160, MemoryAccount>`),
modelled as a partial map from addresses. -/
def AddrState := Nat → Option MemoryAccount

/-- `Default::default()`: the empty state passed to
`MemoryBackend::new(&vicinity, Default::default())`. -/
def emptyState : AddrState := fun _ => none

/-- The faucet funding step of the Sputnik bootstrap arm:
`backend.state_mut().entry(*FAUCET_ACCOUNT).or_insert_with(Default::default)`
followed by `faucet.balance = U256::MAX`.  The faucet address constant
itself lives in `evm-adapters` (not under `src/`), so the step is
parametrized by it. -/
def fundFaucet (faucet : Nat) (s : AddrState) : AddrState :=
  fun a =>
    if a = faucet then
      some { ((s faucet).getD MemoryAccount.default) with balance := U256_MAX }
    else s a

/-- The backend value built by the Sputnik arm: either the plain
`MemoryBackend`, or — modelled from the spec — the `ForkMemoryBackend`
decorator (`evm-adapters`, not under `src/`), which wraps the in-memory
ledger and keeps the `init_state` snapshot taken at wrapping time
(`backend.state().clone()`). -/
inductive SputnikBackend where
  | mem (state : AddrState)
  | fork (wrapped : AddrState) (initStateSnapshot : AddrState)

/-- The ledger state visible through the backend. -/
def SputnikBackend.stateOf : SputnikBackend → AddrState
  | .mem s => s
  | .fork s _ => s

/-- The snapshot held by the fork decorator, when present. -/
def SputnikBackend.snapshotOf : SputnikBackend → Option AddrState
  | .mem _ => none
  | .fork _ snap => some snap

/-- The Sputnik bootstrap of `main` (`EvmType::Sputnik` arm): build a
`MemoryBackend` with empty genesis account state, max out the faucet
balance, then — when a fork URL is given — clone the state and wrap the
backend in `ForkMemoryBackend`. -/
def bootstrapSputnik (forkUrl : Bool) (faucet : Nat) : SputnikBackend :=
  let backend := emptyState
  let backend := fundFaucet faucet backend
  if forkUrl then .fork backend backend else .mem backend

/-- Decoding a `TestResult` back from its serialization recovers it. -/
theorem testResultFromJson_toJson (t : TestResult) :
    testResultFromJson (testResultToJson t) = some t := by
  obtain ⟨s, r, c, g, l⟩ := t
  have hl : ∀ ls : List String, strsOfJson (ls.map Json.str) = some ls := by
    intro ls
    induction ls with
    | nil => rfl
    | cons x xs ih => simp [strsOfJson, ih]
  cases r <;> cases c <;> cases g <;>
    simp [testResultToJson, testResultFromJson, optStrJson, optNumJson,
          boolOfJson, optStrOfJson, optNumOfJson, logsOfJson, hl]

/-- Decoding an inner map back from its serialization recovers it. -/
theorem testsFromJson_toJson (ts : List (String × TestResult)) :
    testsFromJson (ts.map (fun t => (t.1, testResultToJson t.2))) = some ts := by
  induction ts with
  | nil => rfl
  | cons t rest ih =>
    simp [testsFromJson, testResultFromJson_toJson, ih]

/-- Decoding the outer map back from its serialization recovers it. -/
theorem contractsFromJson_toJson (rs : ResultList) :
    contractsFromJson
      (rs.map (fun c => (c.1, Json.obj (c.2.map (fun t => (t.1, testResultToJson t.2)))))) =
      some rs := by
  induction rs with
  | nil => rfl
  | cons c rest ih =>
    simp [contractsFromJson, testsFromJson_toJson, ih]

/-- A result set with every test passing: contract `Foo` with the
passing test `testAdd` (gas 21000). -/
def examplePassingSet : ResultList :=
  [("Foo", [("testAdd", ⟨true, none, none, some 21000, []⟩)])]

/-- A result set with one failing test among passing ones: contract
`Foo` with passing `testAdd` and failing `testSub` (reason
`underflow`). -/
def exampleFailingSet : ResultList :=
  [("Foo", [("testAdd", ⟨true, none, none, some 21000, []⟩),
            ("testSub", ⟨false, some "underflow", none, some 30000, []⟩)])]

/-- A result set with two failing tests, to exhibit the latch. -/
def exampleTwoFailSet : ResultList :=
  [("Foo", [("testSub", ⟨false, some "underflow", none, some 30000, []⟩),
            ("testDiv", ⟨false, some "div by zero", none, some 31000, []⟩)])]

/-- `allSuccess` implies no failure is found by the latch scan. -/
theorem hasFailure_eq_false (rs : ResultList) (h : allSuccess rs = true) :
    hasFailure rs = false := by
  by_contra hx
  have hx2 : hasFailure rs = true := by
    cases hb : hasFailure rs
    · exact absurd hb hx
    · rfl
  simp only [hasFailure, List.any_eq_true] at hx2
  obtain ⟨c, hc, p, hp, hps⟩ := hx2
  simp only [allSuccess, List.all_eq_true] at h
  have hgood := h c hc p hp
  simp_all

/-- Claim C1: the claim says a failing test forces the nonzero failure
sentinel in both machine (JSON) and human-readable modes.  Evaluating
`test()` at a result set with a failing test shows the code does not:
in JSON mode the exit code stays `0` (the `exit_code = -1` assignment
lives only inside the human-readable print loop), while in human mode
it is `-1`; `allow_failure` forces `0` in both modes; additional
failures do not change the human-mode code (latch, not counter). -/
theorem c1_json_mode_exit_unset :
    hasFailure exampleFailingSet = true ∧
    (testRun true 0 false exampleFailingSet).2 = 0 ∧
    unixExitStatus (testRun true 0 false exampleFailingSet).2 = 0 ∧
    (testRun false 0 false exampleFailingSet).2 = -1 ∧
    (testRun false 0 false exampleTwoFailSet).2 = -1 ∧
    (testRun false 0 true exampleFailingSet).2 = 0 ∧
    (testRun true 0 true exampleFailingSet).2 = 0 := by
  refine ⟨by decide, by decide, by decide, by decide, by decide, by decide, by decide⟩

/-- Claim C2 (amended): serializing the result set to the
machine-readable JSON document and parsing it back yields the same
entries (the parsed list equals the serialized enumeration, hence the
same contract → test → TestResult mapping).  No order guarantee is
claimed: the enumeration is the `HashMap`'s unspecified iteration
order. -/
theorem c2_json_roundtrip (rs : ResultList) :
    resultSetFromJson (resultSetToJson rs) = some rs := by
  simp only [resultSetToJson, resultSetFromJson]
  exact contractsFromJson_toJson rs

/-- Claim C2 (counterexample): the result set is a `std` `HashMap`,
whose iteration contract only guarantees that each entry appears once,
in an unspecified order — any permutation of the discovery order is an
admissible enumeration.  A concrete admissible enumeration of a
two-contract set serializes with its contract keys NOT in discovery
order, and parses back to that enumeration, not to discovery order; so
the document's order is not the discovery order. -/
theorem c2_discovery_order_counterexample :
    List.Perm ([("A", []), ("B", [])] : ResultList) [("B", []), ("A", [])] ∧
    resultSetFromJson (resultSetToJson [("A", []), ("B", [])]) =
      some [("A", []), ("B", [])] ∧
    jsonObjKeys (resultSetToJson ([("A", []), ("B", [])] : ResultList)) ≠
      (([("B", []), ("A", [])] : ResultList)).map (fun c => c.1) ∧
    ([("A", []), ("B", [])] : ResultList) ≠ [("B", []), ("A", [])] := by
  refine ⟨List.Perm.swap _ _ _, by decide, by decide, by decide⟩

/-- Claim C3: after the Sputnik bootstrap the faucet account's balance
is `U256::MAX` in the non-forked and the forked path alike; the funding
step overwrites (never adds to) any prior balance and creates the
account when absent; and the `init_state` snapshot handed to the
fork-backed decorator already carries the maxed balance, because
funding happens before wrapping. -/
theorem c3_faucet_balance_max (faucet : Nat) (s : AddrState) :
    ((fundFaucet faucet s) faucet).map (fun a => a.balance) = some U256_MAX ∧
    (((bootstrapSputnik false faucet).stateOf) faucet).map (fun a => a.balance) =
      some U256_MAX ∧
    (((bootstrapSputnik true faucet).stateOf) faucet).map (fun a => a.balance) =
      some U256_MAX ∧
    (bootstrapSputnik true faucet).snapshotOf = some (fundFaucet faucet emptyState) ∧
    (fundFaucet faucet emptyState) faucet =
      some { MemoryAccount.default with balance := U256_MAX } := by
  refine ⟨?_, ?_, ?_, rfl, ?_⟩ <;>
    simp [fundFaucet, bootstrapSputnik, SputnikBackend.stateOf, emptyState]

/-- Claim C4: whenever every test succeeded (the empty result set
included), the exit code `test()` terminates with is `0`, for both
output modes and regardless of allow-failure. -/
theorem c4_all_success_exit_zero (json : Bool) (v : Nat) (af : Bool)
    (rs : ResultList) (h : allSuccess rs = true) :
    (testRun json v af rs).2 = 0 := by
  have hnf := hasFailure_eq_false rs h
  cases json <;> cases af <;> simp [testRun, runContracts_snd, hnf]

/-- Witness for C4 at a concrete all-passing result set. -/
theorem c4_all_success_exit_zero_witness :
    allSuccess examplePassingSet = true ∧
    (testRun false 1 true examplePassingSet).2 = 0 :=
  ⟨by decide, c4_all_success_exit_zero false 1 true examplePassingSet (by decide)⟩

/-- Claim C5: the FAIL marker is exactly
`[FAIL. Reason: r. Counterexample: c]` when both are present,
`[FAIL. Counterexample: c]` and `[FAIL. Reason: r]` when only one is,
and the bare `[FAIL]` when neither is (no stray separators); and every
failing test's summary line carries that marker, painted red. -/
theorem c5_fail_marker :
    (∀ r c : String,
      failText (some r) (some c) =
        "[FAIL. Reason: " ++ r ++ ". Counterexample: " ++ c ++ "]" ∧
      failText none (some c) = "[FAIL. Counterexample: " ++ c ++ "]" ∧
      failText (some r) none = "[FAIL. Reason: " ++ r ++ "]") ∧
    failText none none = "[FAIL]" ∧
    ∀ (name : String) (t : TestResult), t.success = false →
      testLine name t =
        paintRed (failText t.reason t.counterexample) ++ " " ++ name ++
          " (gas: " ++ gasText t.gas_used ++ ")" := by
  refine ⟨fun r c => ⟨rfl, rfl, rfl⟩, rfl, ?_⟩
  intro name t h
  simp [testLine, statusText, h]

/-- Witness for C5 at a concrete failing test. -/
theorem c5_fail_marker_witness :
    testLine "testSub" ⟨false, some "underflow", none, none, []⟩ =
      paintRed (failText (some "underflow") none) ++ " " ++ "testSub" ++
        " (gas: " ++ gasText none ++ ")" :=
  c5_fail_marker.2.2 "testSub" ⟨false, some "underflow", none, none, []⟩ rfl

/-- Claim C6: in the human-readable path with allow-failure unset, a
failing result set makes `test()` call `std::process::exit` with the
literal `-1`; as a Unix exit status (low 8 bits) that value is `255`,
which is nonzero — so the CLI's "nonzero on failure" contract is met by
the truncated value, not by the naive `-1`. -/
theorem c6_failure_sentinel_truncation (rs : ResultList) (v : Nat)
    (h : hasFailure rs = true) :
    (testRun false v false rs).2 = -1 ∧
    unixExitStatus (testRun false v false rs).2 = 255 ∧
    unixExitStatus (testRun false v false rs).2 ≠ 0 := by
  have h2 : (testRun false v false rs).2 = -1 := by
    simp [testRun, runContracts_snd, h]
  refine ⟨h2, ?_, ?_⟩ <;> rw [h2] <;> decide

/-- Witness for C6 at a concrete failing result set. -/
theorem c6_failure_sentinel_truncation_witness :
    (testRun false 0 false exampleFailingSet).2 = -1 ∧
    unixExitStatus (testRun false 0 false exampleFailingSet).2 = 255 ∧
    unixExitStatus (testRun false 0 false exampleFailingSet).2 ≠ 0 :=
  c6_failure_sentinel_truncation exampleFailingSet 0 (by decide)

/-- Claim C7: every per-test summary line ends with the gas field:
the decimal rendering of `n` when `gas_used` is `Some(n)`, and the
fixed placeholder `[fuzztest]` when it is `None` — for passing and
failing tests alike (the status marker and name precede it). -/
theorem c7_gas_field_rendering (ec : Int) (ts : List (String × TestResult)) :
    (runTests ec ts).1 = ts.map (fun p =>
      statusText p.2 ++ " " ++ p.1 ++ " (gas: " ++
        (match p.2.gas_used with
         | some n => Nat.repr n
         | none => "[fuzztest]") ++ ")") := by
  induction ts generalizing ec with
  | nil => rfl
  | cons p rest ih =>
    obtain ⟨nm, t⟩ := p
    simp only [runTests, List.map_cons]
    rw [ih]
    cases h : t.gas_used with
    | none => simp [testLine, gasText, h]
    | some n =>
      simp only [testLine, gasText, h]
      rfl

/-- Claim C8: for a contract with at least one test, the header line
printed before its per-test lines is
`Running {N} tests for {contract}`, with the singular `test` exactly
when the contract has one test. -/
theorem c8_running_header (ec : Int) (v i : Nat) (cn : String)
    (ts : List (String × TestResult)) (rest : ResultList) (h : ts ≠ []) :
    (runContracts ec v i ((cn, ts) :: rest)).1 =
      (if 0 < i then [""] else []) ++
      ("Running " ++ toString ts.length ++ " " ++
        (if ts.length = 1 then "test" else "tests") ++ " for " ++ cn) ::
      ((runTests ec ts).1 ++
        (if 1 < v then "" :: ts.flatMap (fun p => renderVerbose p.1 p.2) else []) ++
        (runContracts (runTests ec ts).2 v (i + 1) rest).1) := by
  have hne : ts.isEmpty = false := by
    cases ts with
    | nil => exact absurd rfl h
    | cons a l => rfl
  have hlen : 1 ≤ ts.length := List.length_pos.mpr h
  have hterm : (if 1 < ts.length then "tests" else "test") =
      (if ts.length = 1 then "test" else "tests") := by
    by_cases h1 : ts.length = 1
    · simp [h1]
    · have h2 : 1 < ts.length := by omega
      simp [h1, h2]
  simp [runContracts, hne, hterm]

/-- Witness for C8 at a concrete two-test contract. -/
theorem c8_running_header_witness :
    (runContracts 0 0 0 exampleFailingSet).1 =
      (if 0 < (0 : Nat) then [""] else []) ++
      ("Running " ++ toString (exampleFailingSet.head!.2.length) ++ " " ++
        (if exampleFailingSet.head!.2.length = 1 then "test" else "tests") ++
        " for " ++ "Foo") ::
      ((runTests 0 exampleFailingSet.head!.2).1 ++
        (if 1 < (0 : Nat) then
          "" :: exampleFailingSet.head!.2.flatMap (fun p => renderVerbose p.1 p.2)
         else []) ++
        (runContracts (runTests 0 exampleFailingSet.head!.2).2 0 (0 + 1) []).1) :=
  c8_running_header 0 0 0 "Foo" exampleFailingSet.head!.2 [] (by decide)

/-- Claim C9: when the JSON flag is set, the only report output of
`test()` is the single serialized result-set document — no contract
headers, per-test lines or verbosity blocks — at every verbosity
level. -/
theorem c9_json_single_document (rs : ResultList) (v : Nat) (af : Bool) :
    (testRun true v af rs).1 = [serializeResultSet rs] ∧
    ((testRun true v af rs).1).length = 1 ∧
    (testRun true v af rs).1 = (testRun true 0 af rs).1 := by
  exact ⟨rfl, rfl, rfl⟩

/-- Claim C10: in human mode a contract with an empty test map
contributes no `Running ...` header and no per-test summary lines —
only the blank separator when it is not the first contract (and, at
verbosity > 1, the blank line opening the verbosity block); the
remaining contracts follow unchanged. -/
theorem c10_empty_contract_lines (ec : Int) (v i : Nat) (cn : String)
    (rest : ResultList) :
    (runContracts ec v i ((cn, []) :: rest)).1 =
      (if 0 < i then [""] else []) ++
      (if 1 < v then [""] else []) ++
      (runContracts ec v (i + 1) rest).1 := by
  simp [runContracts, runTests]

end Forge
